import Mathlib

/-!
Verification development for the NightTrader MT5 signal-execution service
(`mt5-service/service.py`).  The Python service is shallowly embedded:

* JSON signal payloads become association lists of string keys to `PyVal`
  values (strings or rationals; Python floats are modelled as `ℚ`);
* the MetaTrader 5 venue adapter becomes an explicit environment record
  `MT5Env` (symbol metadata, positions, tick quotes, order submission);
* each service method becomes a pure Lean function returning its result
  together with the recorded outcome status, the updated symbol cache and
  the list of venue-adapter calls it performed;
* the RabbitMQ reconnection loop becomes a recursion over a script of
  connect-attempt results, yielding the sequence of backoff waits.

Exceptions raised by a Python call are modelled with `Except Unit`; the
service's catch-all handlers become explicit `ERROR` branches.  Best-effort
side channels (Redis writes, log lines) carry no control flow in the source
and are not modelled.  Python string values holding numerals (e.g.
`float("0.5")`) are out of model: `pyFloat` fails on every string value.
-/

/-- A decoded JSON value as used by the service: a string or a number
(Python floats modelled as rationals). -/
inductive PyVal where
  | s (v : String)
  | n (v : ℚ)
deriving DecidableEq

/-- A decoded signal: the JSON object body, as key/value pairs
(`signal.get(k, d)` becomes lookup with default). -/
def Signal := List (String × PyVal)

instance : DecidableEq Signal := by unfold Signal; infer_instance

/-- `signal.get(k)` — first binding wins, as in a Python dict. -/
def sigGet (sig : Signal) (k : String) : Option PyVal :=
  List.lookup k sig

/-- `float(v)`: numbers convert; strings are out of model (numeric strings
would convert in Python, non-numeric ones raise `ValueError`). -/
def pyFloat (v : PyVal) : Except Unit ℚ :=
  match v with
  | .n q => .ok q
  | .s _ => .error ()

/-- Lowercase a string (Python `str.lower` for the ASCII values used here). -/
def strLower (s : String) : String := ⟨s.data.map Char.toLower⟩

/-- Uppercase a string (Python `str.upper` for the ASCII values used here). -/
def strUpper (s : String) : String := ⟨s.data.map Char.toUpper⟩

/-- Does `p` occur at the head of `l`? -/
def startsWithChars : List Char → List Char → Bool
  | [], _ => true
  | _ :: _, [] => false
  | p :: ps, c :: cs => p == c && startsWithChars ps cs

/-- Fuelled worker for `pyReplace`. -/
def replAux : Nat → List Char → List Char → List Char → List Char
  | 0, s, _, _ => s
  | _ + 1, [], _, _ => []
  | fuel + 1, c :: rest, pat, repl =>
    if startsWithChars pat (c :: rest) then
      repl ++ replAux fuel ((c :: rest).drop pat.length) pat repl
    else
      c :: replAux fuel rest pat repl

/-- Python `s.replace(pat, repl)`: replace every occurrence, left to right
(used with nonempty patterns only). -/
def pyReplace (s pat repl : String) : String :=
  ⟨replAux (s.data.length + 1) s.data pat.data repl.data⟩

/-- Python round-half-to-even (`round(x)`), on rationals. -/
def pyRound (x : ℚ) : ℤ :=
  let f := ⌊x⌋
  let r := x - (f : ℚ)
  if r < 1/2 then f else if 1/2 < r then f + 1 else if f % 2 = 0 then f else f + 1

/-- `mt5.ORDER_TYPE_BUY` -/
def ORDER_TYPE_BUY : Nat := 0
/-- `mt5.ORDER_TYPE_SELL` -/
def ORDER_TYPE_SELL : Nat := 1
/-- `mt5.TRADE_ACTION_DEAL` -/
def TRADE_ACTION_DEAL : Nat := 1
/-- `mt5.TRADE_RETCODE_DONE` -/
def TRADE_RETCODE_DONE : Nat := 10009
/-- The engine's fixed strategy tag (magic number `234000`). -/
def MAGIC_NUMBER : Nat := 234000

/-- Venue symbol metadata (`mt5.symbol_info`): visibility, trade mode,
quotes and volume constraints. -/
structure SymbolInfo where
  visible : Bool
  /-- `trade_mode == mt5.SYMBOL_TRADE_MODE_FULL` -/
  trade_mode_full : Bool
  bid : ℚ
  ask : ℚ
  volume_min : ℚ
  volume_max : ℚ
  volume_step : ℚ
deriving DecidableEq

/-- A venue position (`mt5.positions_get` entry). -/
structure Position where
  ticket : Nat
  symbol : String
  /-- `0` = BUY (long), `1` = SELL (short). -/
  ptype : Nat
  volume : ℚ
  magic : Nat
deriving DecidableEq

/-- A tick quote (`mt5.symbol_info_tick`). -/
structure Tick where
  bid : ℚ
  ask : ℚ
deriving DecidableEq

/-- The result object returned by `mt5.order_send`. -/
structure OrderResult where
  retcode : Nat
  order : Nat
  price : ℚ
  volume : ℚ
  comment : String
deriving DecidableEq

/-- The trade-request dictionary submitted to `mt5.order_send`. -/
structure OrderRequest where
  action : Nat
  symbol : String
  volume : ℚ
  otype : Nat
  price : ℚ
  deviation : Nat
  magic : Nat
  comment : String
  /-- `position` key: the ticket being closed, when closing. -/
  position : Option Nat
  sl : Option ℚ
  tp : Option ℚ
deriving DecidableEq

/-- One call made against the venue adapter. -/
inductive VenueCall where
  | symbolInfoQ (s : String)
  | selectQ (s : String)
  | terminalQ
  | accountQ
  | positionsQ
  | positionsSymQ (s : String)
  | tickQ (s : String)
  | orderSendQ (r : OrderRequest)
  | reconnectQ
deriving DecidableEq

/-- The venue adapter environment: the responses MT5 would give during one
signal's processing (held fixed, since processing is single-threaded). -/
structure MT5Env where
  /-- Truthiness of `mt5.terminal_info()`. -/
  terminal_alive : Bool
  /-- Whether `self.connect_mt5()` would succeed if retried. -/
  reconnect_success : Bool
  symbol_info : String → Option SymbolInfo
  /-- Truthiness of `mt5.account_info()` (fields unused by the engine's logic). -/
  account : Bool
  /-- `mt5.positions_get()` — `Except.error` models a raised exception. -/
  positions : Except Unit (List Position)
  /-- `mt5.positions_get(symbol=s)` — `Except.error` models a raised exception. -/
  positions_for : String → Except Unit (List Position)
  tick : String → Tick
  order_send : OrderRequest → Option OrderResult

/-- Recorded outcome statuses written by `log_trade_attempt`. -/
inductive Outcome where
  | SUCCESS
  | PARTIAL
  | SKIPPED
  | REJECTED
  | FAILED
  | ERROR
deriving DecidableEq

/-- The engine's symbol cache `self.symbol_map` (first binding wins). -/
def SymbolMap := List (String × String)

instance : DecidableEq SymbolMap := by unfold SymbolMap; infer_instance

/-- `if info and info.visible and info.trade_mode == SYMBOL_TRADE_MODE_FULL`. -/
def isTradeable (o : Option SymbolInfo) : Bool :=
  match o with
  | some i => i.visible && i.trade_mode_full
  | none => false

/-- Result of `get_tradeable_symbol`: resolved name, updated cache, and the
venue calls performed. -/
structure ResolveResult where
  result : Option String
  map : SymbolMap
  calls : List VenueCall
deriving DecidableEq

/-- The suffix list tried by `get_tradeable_symbol` (in order). -/
def suffixList : List String := [".p", ".s", ".a", "m", ""]

/-- The suffix-stripping in `get_tradeable_symbol` (line 139):
`requested.replace('.p','').replace('.s','').replace('.a','')`. -/
def stripSuffixes (requested : String) : String :=
  pyReplace (pyReplace (pyReplace requested ".p" "") ".s" "") ".a" ""

/-- The final loop of `get_tradeable_symbol`: probe `base + suffix` for each
suffix, returning the first tradeable variant and the metadata calls made. -/
def trySuffixes (env : MT5Env) (base : String) : List String → Option String × List VenueCall
  | [] => (none, [])
  | sfx :: rest =>
    let t := base ++ sfx
    if isTradeable (env.symbol_info t) then
      (some t, [.symbolInfoQ t, .selectQ t])
    else
      let r := trySuffixes env base rest
      (r.1, .symbolInfoQ t :: r.2)

/-- `MT5Service.get_tradeable_symbol` (service.py lines 119–156): direct
probe, cache lookup, suffix-stripped cache lookup, then suffix search with
memoization; `none` when nothing tradeable is found. -/
def get_tradeable_symbol (env : MT5Env) (connected : Bool) (map : SymbolMap)
    (requested : String) : ResolveResult :=
  if connected = false then ⟨none, map, []⟩
  else if isTradeable (env.symbol_info requested) then
    ⟨some requested, map, [.symbolInfoQ requested, .selectQ requested]⟩
  else
    match map.lookup requested with
    | some mapped => ⟨some mapped, map, [.symbolInfoQ requested, .selectQ mapped]⟩
    | none =>
      let base := stripSuffixes requested
      match map.lookup base with
      | some mapped => ⟨some mapped, map, [.symbolInfoQ requested, .selectQ mapped]⟩
      | none =>
        match trySuffixes env base suffixList with
        | (some t, cs) => ⟨some t, (requested, t) :: map, .symbolInfoQ requested :: cs⟩
        | (none, cs) => ⟨none, map, .symbolInfoQ requested :: cs⟩

/-- Number of venue metadata queries (`mt5.symbol_info` calls) in a call list. -/
def metaQueries (cs : List VenueCall) : Nat :=
  (cs.filter fun c => match c with | .symbolInfoQ _ => true | _ => false).length

/-- The order requests submitted (`mt5.order_send` calls) in a call list. -/
def sentOrders (cs : List VenueCall) : List OrderRequest :=
  cs.filterMap fun c => match c with | .orderSendQ r => some r | _ => none

/-- `MT5Service.has_open_position` (service.py lines 158–184): `false` when
disconnected, when the query raises, or when no position carries the
engine's magic number; `true` otherwise.  Also returns the venue calls. -/
def has_open_position (connected : Bool) (env : MT5Env) : Bool × List VenueCall :=
  if connected = false then (false, [])
  else
    match env.positions with
    | .error _ => (false, [.positionsQ])
    | .ok ps =>
      if ps.isEmpty then (false, [.positionsQ])
      else (!(ps.filter fun p => p.magic == MAGIC_NUMBER).isEmpty, [.positionsQ])

/-- The close request built for one position in either closing loop:
direction reversed, price from the opposite side of the quote, referencing
the position's ticket. -/
def mkCloseReq (env : MT5Env) (symbol comment : String) (p : Position) : OrderRequest :=
  let cot := if p.ptype == 1 then ORDER_TYPE_BUY else ORDER_TYPE_SELL
  { action := TRADE_ACTION_DEAL
    symbol := symbol
    volume := p.volume
    otype := cot
    price := if cot == ORDER_TYPE_BUY then (env.tick symbol).ask else (env.tick symbol).bid
    deviation := 20
    magic := MAGIC_NUMBER
    comment := comment
    position := some p.ticket
    sl := none
    tp := none }

/-- Did the close attempt for `p` fail (`order_send` returned `None` or a
non-`TRADE_RETCODE_DONE` code)? -/
def closeFails (env : MT5Env) (symbol comment : String) (p : Position) : Bool :=
  match env.order_send (mkCloseReq env symbol comment p) with
  | none => true
  | some r => !(r.retcode == TRADE_RETCODE_DONE)

/-- The closing loop of `close_positions_by_signal` (lines 327–378): one
attempt per position, tallying `(closed, failed)` and recording the venue
calls; a failure never stops the loop. -/
def closeLoop (env : MT5Env) (symbol comment : String) :
    List Position → Nat × Nat × List VenueCall
  | [] => (0, 0, [])
  | p :: rest =>
    let req := mkCloseReq env symbol comment p
    let r := closeLoop env symbol comment rest
    if closeFails env symbol comment p then
      (r.1, r.2.1 + 1, .tickQ symbol :: .orderSendQ req :: r.2.2)
    else
      (r.1 + 1, r.2.1, .tickQ symbol :: .orderSendQ req :: r.2.2)

/-- The `close_type` filter (lines 311–315): `long` keeps BUY positions,
`short` keeps SELL positions, anything else keeps all. -/
def selectByCloseType (t : String) (ps : List Position) : List Position :=
  if t = "long" then ps.filter fun p => p.ptype == 0
  else if t = "short" then ps.filter fun p => p.ptype == 1
  else ps

/-- Result of `close_positions_by_signal`: the status recorded via
`log_trade_attempt` (none only on the disconnected early return, which logs
nothing), the returned boolean, the updated cache and the venue calls. -/
structure CloseResult where
  recorded : Option Outcome
  ret : Bool
  map : SymbolMap
  calls : List VenueCall
deriving DecidableEq

/-- `MT5Service.close_positions_by_signal` (service.py lines 273–391):
resolve the symbol, select own positions matching the signal's `type`
field, attempt to close each, and record SUCCESS when no attempt failed,
PARTIAL otherwise. -/
def close_positions_by_signal (env : MT5Env) (connected : Bool) (map : SymbolMap)
    (sig : Signal) : CloseResult :=
  if connected = false then ⟨none, true, map, []⟩
  else
    match (sigGet sig "symbol").getD (.s "EURUSD") with
    | .n _ => ⟨some .ERROR, false, map, []⟩
    | .s requested =>
      let res := get_tradeable_symbol env connected map requested
      match res.result with
      | none => ⟨some .FAILED, true, res.map, res.calls⟩
      | some symbol =>
        match (sigGet sig "type").getD (.s "all") with
        | .n _ => ⟨some .ERROR, false, res.map, res.calls⟩
        | .s ctRaw =>
          let closeType := strLower ctRaw
          let reason := match (sigGet sig "reason").getD (.s "manual_close") with
            | .s r => r
            | .n q => toString q
          match env.positions_for symbol with
          | .error _ => ⟨some .ERROR, false, res.map, res.calls ++ [.positionsSymQ symbol]⟩
          | .ok ps =>
            if ps.isEmpty then
              ⟨some .SUCCESS, true, res.map, res.calls ++ [.positionsSymQ symbol]⟩
            else
              let ours := ps.filter fun p => p.magic == MAGIC_NUMBER
              if ours.isEmpty then
                ⟨some .SUCCESS, true, res.map, res.calls ++ [.positionsSymQ symbol]⟩
              else
                let toClose := selectByCloseType closeType ours
                if toClose.isEmpty then
                  ⟨some .SUCCESS, true, res.map, res.calls ++ [.positionsSymQ symbol]⟩
                else
                  let lp := closeLoop env symbol ("Close: " ++ reason) toClose
                  let outcome := if lp.2.1 = 0 then Outcome.SUCCESS else Outcome.PARTIAL
                  ⟨some outcome, true, res.map,
                    res.calls ++ [.positionsSymQ symbol] ++ lp.2.2⟩

/-- The closing loop of `close_opposite_positions` (lines 220–265): like
`closeLoop` but failures are only logged, not tallied. -/
def closeOppLoop (env : MT5Env) (symbol : String) :
    List Position → List VenueCall
  | [] => []
  | p :: rest =>
    let req := mkCloseReq env symbol "Close opposite position" p
    .tickQ symbol :: .orderSendQ req :: closeOppLoop env symbol rest

/-- `MT5Service.close_opposite_positions` (service.py lines 186–271): close
every own position on `symbol` whose direction is opposite `action`;
returns `false` only when the position query raises. -/
def close_opposite_positions (env : MT5Env) (connected : Bool)
    (symbol action : String) : Bool × List VenueCall :=
  if connected = false then (true, [])
  else
    match env.positions_for symbol with
    | .error _ => (false, [.positionsSymQ symbol])
    | .ok ps =>
      if ps.isEmpty then (true, [.positionsSymQ symbol])
      else
        let ours := ps.filter fun p => p.magic == MAGIC_NUMBER
        if ours.isEmpty then (true, [.positionsSymQ symbol])
        else
          let oppType := if action = "BUY" then 1 else 0
          let toClose := ours.filter fun p => p.ptype == oppType
          if toClose.isEmpty then (true, [.positionsSymQ symbol])
          else (true, .positionsSymQ symbol :: closeOppLoop env symbol toClose)

/-- Order assembly in `process_signal` (service.py lines 609–643): price
from the quote side matching the action, volume clamped to
`[volume_min, volume_max]` and rounded to the step, and optional `sl`/`tp`
converted from distances to absolute prices.  `Except.error` models the
exceptions the source's catch-all would turn into an ERROR outcome
(zero volume step, non-numeric `sl`/`tp`). -/
def buildOrderRequest (sig : Signal) (symbol action : String) (si : SymbolInfo)
    (quantity : ℚ) : Except Unit OrderRequest :=
  let price := if action = "BUY" then si.ask else si.bid
  if si.volume_step = 0 then .error ()
  else
    let volume := max si.volume_min (min quantity si.volume_max)
    let volume := (pyRound (volume / si.volume_step) : ℚ) * si.volume_step
    let base : OrderRequest :=
      { action := TRADE_ACTION_DEAL
        symbol := symbol
        volume := volume
        otype := if action = "BUY" then ORDER_TYPE_BUY else ORDER_TYPE_SELL
        price := price
        deviation := 20
        magic := MAGIC_NUMBER
        comment := "NightTrader " ++ action
        position := none
        sl := none
        tp := none }
    match sigGet sig "sl" with
    | some (.s _) => .error ()
    | slv =>
      let withSl := match slv with
        | some (.n d) =>
          { base with sl := some (if action = "BUY" then price - d else price + d) }
        | _ => base
      match sigGet sig "tp" with
      | some (.s _) => .error ()
      | tpv =>
        .ok <| match tpv with
          | some (.n d) =>
            { withSl with tp := some (if action = "BUY" then price + d else price - d) }
          | _ => withSl

/-- Policy toggles from `Config`. -/
structure Cfg where
  single_trade_mode : Bool
  close_opposite_positions : Bool
deriving DecidableEq

/-- The engine's relevant instance state. -/
structure SvcState where
  mt5_connected : Bool
  vps_id : String
  symbol_map : SymbolMap
deriving DecidableEq

/-- `self.vps_id = os.getenv('VPS_INSTANCE_ID', 'unknown')` (service.py
line 46). -/
def initVpsId (envVar : Option String) : String := envVar.getD "unknown"

/-- Result of `process_signal`: the status recorded via
`log_trade_attempt`, the returned boolean, the updated cache and the venue
calls. -/
structure ProcResult where
  outcome : Option Outcome
  ret : Bool
  map : SymbolMap
  calls : List VenueCall
deriving DecidableEq

/-- The tail of `process_signal` after the connectivity and recipient
checks (service.py lines 537–698): resolve the symbol, dispatch CLOSE,
re-verify venue liveness, fetch metadata and account, apply the
single-trade guard and the close-opposite sub-flow, then build and submit
the order. -/
def processAfterChecks (cfg : Cfg) (env : MT5Env) (st : SvcState)
    (sig : Signal) : ProcResult :=
  match (sigGet sig "symbol").getD (.s "EURUSD") with
  | .n _ => ⟨some .ERROR, true, st.symbol_map, []⟩
  | .s requested =>
    let res := get_tradeable_symbol env st.mt5_connected st.symbol_map requested
    match res.result with
    | none => ⟨some .FAILED, true, res.map, res.calls⟩
    | some symbol =>
      match (sigGet sig "action").getD (.s "BUY") with
      | .n _ => ⟨some .ERROR, true, res.map, res.calls⟩
      | .s actRaw =>
        let action := strUpper actRaw
        if action = "CLOSE" then
          let c := close_positions_by_signal env st.mt5_connected res.map sig
          ⟨c.recorded, c.ret, c.map, res.calls ++ c.calls⟩
        else
          match pyFloat ((sigGet sig "quantity").getD (.n (1/100))) with
          | .error _ => ⟨some .ERROR, true, res.map, res.calls⟩
          | .ok quantity =>
            let calls1 := res.calls ++ [VenueCall.terminalQ]
            let liveOk := env.terminal_alive || env.reconnect_success
            let calls1 := if env.terminal_alive then calls1 else calls1 ++ [.reconnectQ]
            if liveOk = false then ⟨some .FAILED, true, res.map, calls1⟩
            else
              let calls2 := calls1 ++ [VenueCall.symbolInfoQ symbol]
              match env.symbol_info symbol with
              | none => ⟨some .FAILED, true, res.map, calls2⟩
              | some si =>
                let calls3 := calls2 ++ [VenueCall.accountQ]
                if env.account = false then ⟨some .FAILED, true, res.map, calls3⟩
                else
                  let guard := has_open_position st.mt5_connected env
                  let calls4 := calls3 ++ (if cfg.single_trade_mode then guard.2 else [])
                  if cfg.single_trade_mode && guard.1 then
                    ⟨some .SKIPPED, true, res.map, calls4⟩
                  else
                    let co := close_opposite_positions env st.mt5_connected symbol action
                    let calls5 := calls4 ++ (if cfg.close_opposite_positions then co.2 else [])
                    match buildOrderRequest sig symbol action si quantity with
                    | .error _ => ⟨some .ERROR, true, res.map, calls5⟩
                    | .ok req =>
                      let calls6 := calls5 ++ [VenueCall.orderSendQ req]
                      match env.order_send req with
                      | none => ⟨some .FAILED, true, res.map, calls6⟩
                      | some r =>
                        if r.retcode ≠ TRADE_RETCODE_DONE then
                          ⟨some .FAILED, true, res.map, calls6⟩
                        else
                          ⟨some .SUCCESS, true, res.map, calls6⟩

/-- `MT5Service.process_signal` (service.py lines 511–698): skip when the
venue adapter is not connected, reject signals addressed to another
instance, then continue with `processAfterChecks`. -/
def process_signal (cfg : Cfg) (env : MT5Env) (st : SvcState) (sig : Signal) :
    ProcResult :=
  if st.mt5_connected = false then
    ⟨some .SKIPPED, true, st.symbol_map, []⟩
  else if (sigGet sig "vps_id").getD (.s "unknown") ≠ PyVal.s st.vps_id then
    ⟨some .REJECTED, true, st.symbol_map, []⟩
  else
    processAfterChecks cfg env st sig

/-- Events observable at the consumer boundary. -/
inductive MsgEvent where
  | processed
  | acked
deriving DecidableEq

/-- `MT5Service.on_message` (service.py lines 709–725): decode, process,
acknowledge; the catch-all handler also acknowledges.  `decoded` abstracts
`json.loads` (error = raised decode exception); `proc` abstracts
`process_signal` (error = an exception raised during processing). -/
def on_message (decoded : Except Unit Signal) (proc : Signal → Except Unit Bool) :
    List MsgEvent :=
  match decoded with
  | .error _ => [.acked]
  | .ok sig =>
    match proc sig with
    | .ok _ => [.processed, .acked]
    | .error _ => [.processed, .acked]

/-- `min(self.reconnect_delay * 2, Config.RABBITMQ_MAX_RETRY_DELAY)`
(service.py line 761). -/
def capDouble (maxDelay d : Nat) : Nat := min (d * 2) maxDelay

/-- Result of the reconnection loop: whether it reconnected, the final
`self.reconnect_delay`, and the successive backoff waits slept. -/
structure ReconnectResult where
  connected : Bool
  delay : Nat
  waits : List Nat
deriving DecidableEq

/-- The retry loop of `MT5Service.ensure_rabbitmq_connected` (service.py
lines 750–771) over a script of `connect_rabbitmq` outcomes; script
exhaustion models `should_stop`.  `d` is the current
`self.reconnect_delay` (equal to the configured base delay at startup and
after every successful reconnect). -/
def ensure_rabbitmq_connected (maxDelay baseDelay d : Nat) :
    List Bool → ReconnectResult
  | [] => ⟨false, d, []⟩
  | ok :: rest =>
    if ok then ⟨true, baseDelay, []⟩
    else
      let d' := capDouble maxDelay d
      let r := ensure_rabbitmq_connected maxDelay baseDelay d' rest
      ⟨r.connected, r.delay, d' :: r.waits⟩

/-- Number of failed close attempts among `ps` (the loop's `failed_count`). -/
def closeFailures (env : MT5Env) (symbol comment : String) (ps : List Position) : Nat :=
  (ps.filter fun p => closeFails env symbol comment p).length

/-- A fully tradeable EURUSD metadata record used in concrete runs. -/
def siEURUSD : SymbolInfo :=
  { visible := true, trade_mode_full := true, bid := 1, ask := 2
    volume_min := 1, volume_max := 100, volume_step := 1 }

/-- An own long position used in concrete runs. -/
def posLong1 : Position := ⟨11, "EURUSD", 0, 1, MAGIC_NUMBER⟩

/-- A benign venue environment: EURUSD tradeable, no positions, account
available, every order accepted. -/
def envStd : MT5Env :=
  { terminal_alive := true
    reconnect_success := true
    symbol_info := fun s => if s = "EURUSD" then some siEURUSD else none
    account := true
    positions := .ok []
    positions_for := fun _ => .ok []
    tick := fun _ => ⟨1, 2⟩
    order_send := fun r => some ⟨TRADE_RETCODE_DONE, 99, r.price, r.volume, "done"⟩ }

/-- Venue environment for the C1 run: one own long EURUSD position and an
`order_send` that always returns `None`. -/
def envC1 : MT5Env :=
  { envStd with
    positions_for := fun s => if s = "EURUSD" then .ok [posLong1] else .ok []
    order_send := fun _ => none }

/-- A CLOSE signal with no close-type field. -/
def sigC1 : Signal := [("action", .s "CLOSE"), ("symbol", .s "EURUSD")]

/-- Own long positions `21`, `22` and own short position `23`, for the C2
scenario. -/
def posLongA : Position := ⟨21, "EURUSD", 0, 1, MAGIC_NUMBER⟩
/-- Second own long position for the C2 scenario. -/
def posLongB : Position := ⟨22, "EURUSD", 0, 1, MAGIC_NUMBER⟩
/-- Own short position for the C2 scenario. -/
def posShortC : Position := ⟨23, "EURUSD", 1, 1, MAGIC_NUMBER⟩

/-- Venue environment for the C2 scenario: two own longs, one own short,
all close attempts succeed. -/
def envC2 : MT5Env :=
  { envStd with
    positions_for := fun s =>
      if s = "EURUSD" then .ok [posLongA, posLongB, posShortC] else .ok [] }

/-- CLOSE signal carrying the selector under the key the code reads
(`type`). -/
def sigC2 : Signal :=
  [("action", .s "CLOSE"), ("symbol", .s "EURUSD"), ("type", .s "long")]

/-- CLOSE signal carrying the selector under the spec's key
(`close_type`), which the code ignores. -/
def sigC2cex : Signal :=
  [("action", .s "CLOSE"), ("symbol", .s "EURUSD"), ("close_type", .s "long")]

/-- Tradeable metadata for the `GOLDm` variant in the C3 run. -/
def siGOLDm : SymbolInfo :=
  { visible := true, trade_mode_full := true, bid := 5, ask := 6
    volume_min := 1, volume_max := 100, volume_step := 1 }

/-- Venue environment for the C3 run: only the suffixed variant `GOLDm` is
tradeable, so resolving `GOLD` goes through the suffix search and caches. -/
def envC3 : MT5Env :=
  { envStd with symbol_info := fun s => if s = "GOLDm" then some siGOLDm else none }

/-- Venue environment with one open own position (for the C5 run). -/
def envOpenPos : MT5Env := { envStd with positions := .ok [posLong1] }

/-- Venue environment whose global position query raises (for the C10 run). -/
def envPosErr : MT5Env := { envStd with positions := .error () }

/-- A BUY signal addressed to instance `vps1`. -/
def sigBuy : Signal :=
  [("vps_id", .s "vps1"), ("action", .s "BUY"), ("symbol", .s "EURUSD"),
   ("quantity", .n 1)]

/-- A BUY signal addressed to a different instance. -/
def sigWrongVps : Signal :=
  [("vps_id", .s "other-instance"), ("action", .s "BUY"), ("symbol", .s "EURUSD")]

/-- A BUY signal with no `vps_id` field. -/
def sigNoVps : Signal :=
  [("action", .s "BUY"), ("symbol", .s "EURUSD"), ("quantity", .n 1)]

/-- Signal fragment carrying `sl`/`tp` distances for the C8 witness. -/
def sigSlTp : Signal := [("sl", .n 1), ("tp", .n 2)]

/-- Instance state: connected, identity `vps1`, empty cache. -/
def stVps1 : SvcState := ⟨true, "vps1", []⟩

/-- Instance state with the defaulted identity. -/
def stUnknown : SvcState := ⟨true, "unknown", []⟩

/-- Single-trade mode on, close-opposite off. -/
def cfgSingle : Cfg := ⟨true, false⟩

/-- C4: for every delivered message exactly one acknowledgment is issued —
under successful processing, decode failure, and an exception raised during
processing — and the acknowledgment is the last event, hence strictly after
processing completes and never skipped. -/
theorem on_message_ack_total (decoded : Except Unit Signal)
    (proc : Signal → Except Unit Bool) :
    (on_message decoded proc).count MsgEvent.acked = 1 ∧
    (on_message decoded proc).getLast? = some MsgEvent.acked := by
  cases decoded with
  | error e => simp [on_message]
  | ok sig =>
    cases hp : proc sig with
    | ok b => simp [on_message, hp]
    | error e => simp [on_message, hp]

theorem capDouble_le (maxD d : Nat) : capDouble maxD d ≤ maxD :=
  Nat.min_le_right _ _

theorem le_capDouble (maxD d : Nat) (h : d ≤ maxD) : d ≤ capDouble maxD d :=
  Nat.le_min.mpr ⟨by omega, h⟩

theorem ensure_waits_props (maxD base : Nat) (script : List Bool) :
    ∀ d,
      List.Chain' (· ≤ ·) (ensure_rabbitmq_connected maxD base d script).waits ∧
      (∀ w ∈ (ensure_rabbitmq_connected maxD base d script).waits, w ≤ maxD) ∧
      ((ensure_rabbitmq_connected maxD base d script).connected = true →
        (ensure_rabbitmq_connected maxD base d script).delay = base) ∧
      (∀ i, i + 1 < (ensure_rabbitmq_connected maxD base d script).waits.length →
        (ensure_rabbitmq_connected maxD base d script).waits.getD (i + 1) 0 =
          capDouble maxD ((ensure_rabbitmq_connected maxD base d script).waits.getD i 0)) ∧
      (0 < (ensure_rabbitmq_connected maxD base d script).waits.length →
        (ensure_rabbitmq_connected maxD base d script).waits.getD 0 0 = capDouble maxD d) := by
  induction script with
  | nil =>
    intro d
    simp [ensure_rabbitmq_connected]
  | cons ok rest ih =>
    intro d
    cases ok with
    | true =>
      simp [ensure_rabbitmq_connected]
    | false =>
      obtain ⟨hchain, hle, hreset, hstep, hhead⟩ := ih (capDouble maxD d)
      have hrun : ensure_rabbitmq_connected maxD base d (false :: rest) =
          ⟨(ensure_rabbitmq_connected maxD base (capDouble maxD d) rest).connected,
           (ensure_rabbitmq_connected maxD base (capDouble maxD d) rest).delay,
           capDouble maxD d ::
             (ensure_rabbitmq_connected maxD base (capDouble maxD d) rest).waits⟩ := rfl
      rw [hrun]
      refine ⟨?_, ?_, ?_, ?_, ?_⟩
      · cases hw : (ensure_rabbitmq_connected maxD base (capDouble maxD d) rest).waits with
        | nil => simp
        | cons w ws =>
          rw [List.chain'_cons]
          constructor
          · have hw0 := hhead (by rw [hw]; simp)
            rw [hw] at hw0
            simp at hw0
            rw [hw0]
            exact le_capDouble maxD (capDouble maxD d) (capDouble_le maxD d)
          · rw [hw] at hchain; exact hchain
      · intro w hw
        rcases List.mem_cons.mp hw with h | h
        · rw [h]; exact capDouble_le maxD d
        · exact hle w h
      · exact hreset
      · intro i hi
        cases i with
        | zero =>
          simp only [List.getD_cons_succ, List.getD_cons_zero]
          have hlen : 0 < (ensure_rabbitmq_connected maxD base (capDouble maxD d) rest).waits.length := by
            simp at hi; omega
          exact hhead hlen
        | succ j =>
          simp only [List.getD_cons_succ]
          apply hstep
          simp at hi; omega
      · intro _
        simp

/-- C6: starting from the configured base delay, each consecutive failed
reconnect attempt doubles the wait (capped at the configured maximum), the
waits are non-decreasing and never exceed the cap, and a successful
reconnect resets `reconnect_delay` to the base value. -/
theorem backoff_monotone_and_reset (maxD base : Nat) (script : List Bool) :
    List.Chain' (· ≤ ·) (ensure_rabbitmq_connected maxD base base script).waits ∧
    (∀ w ∈ (ensure_rabbitmq_connected maxD base base script).waits, w ≤ maxD) ∧
    ((ensure_rabbitmq_connected maxD base base script).connected = true →
      (ensure_rabbitmq_connected maxD base base script).delay = base) ∧
    (∀ i, i + 1 < (ensure_rabbitmq_connected maxD base base script).waits.length →
      (ensure_rabbitmq_connected maxD base base script).waits.getD (i + 1) 0 =
        capDouble maxD ((ensure_rabbitmq_connected maxD base base script).waits.getD i 0)) ∧
    (0 < (ensure_rabbitmq_connected maxD base base script).waits.length →
      (ensure_rabbitmq_connected maxD base base script).waits.getD 0 0 = capDouble maxD base) :=
  ensure_waits_props maxD base script base

/-- Witness for C6: two failures then a success with base 5 and cap 300 —
waits 10 then 20 (each the capped double of its predecessor), and the
delay is reset to 5 by the success. -/
theorem backoff_monotone_and_reset_witness :
    (ensure_rabbitmq_connected 300 5 5 [false, false, true]).delay = 5 ∧
    (ensure_rabbitmq_connected 300 5 5 [false, false, true]).waits.getD 1 0 =
      capDouble 300 ((ensure_rabbitmq_connected 300 5 5 [false, false, true]).waits.getD 0 0) :=
  ⟨(backoff_monotone_and_reset 300 5 [false, false, true]).2.2.1 (by decide),
   (backoff_monotone_and_reset 300 5 [false, false, true]).2.2.2.1 0 (by decide)⟩

theorem metaQueries_pair (a b : String) :
    metaQueries [VenueCall.symbolInfoQ a, VenueCall.selectQ b] = 1 := by
  simp [metaQueries]

/-- C3 (amended): resolving the same requested symbol twice with no
intervening reconnect returns identical results and leaves the cache
unchanged; but the second call still performs exactly one venue metadata
query when the first call cached a resolution (the direct `symbol_info`
probe precedes the cache lookup), never more than the first call made. -/
theorem get_tradeable_symbol_idem (env : MT5Env) (conn : Bool) (map : SymbolMap)
    (requested : String) :
    (get_tradeable_symbol env conn (get_tradeable_symbol env conn map requested).map
        requested).result = (get_tradeable_symbol env conn map requested).result ∧
    (get_tradeable_symbol env conn (get_tradeable_symbol env conn map requested).map
        requested).map = (get_tradeable_symbol env conn map requested).map ∧
    ((get_tradeable_symbol env conn map requested).map ≠ map →
      metaQueries (get_tradeable_symbol env conn
        (get_tradeable_symbol env conn map requested).map requested).calls = 1) ∧
    metaQueries (get_tradeable_symbol env conn
        (get_tradeable_symbol env conn map requested).map requested).calls ≤
      metaQueries (get_tradeable_symbol env conn map requested).calls := by
  cases conn with
  | false =>
    simp [get_tradeable_symbol]
  | true =>
    by_cases ht : isTradeable (env.symbol_info requested) = true
    · simp [get_tradeable_symbol, ht]
    · have ht' : isTradeable (env.symbol_info requested) = false := by
        simpa using ht
      cases hm : map.lookup requested with
      | some mapped =>
        simp [get_tradeable_symbol, ht', hm, metaQueries_pair]
      | none =>
        cases hb : map.lookup (stripSuffixes requested) with
        | some mapped =>
          simp [get_tradeable_symbol, ht', hm, hb, metaQueries_pair]
        | none =>
          cases hts : trySuffixes env (stripSuffixes requested) suffixList with
          | mk res cs =>
            cases res with
            | none =>
              simp [get_tradeable_symbol, ht', hm, hb, hts]
            | some t =>
              have hfirst : get_tradeable_symbol env true map requested =
                  ⟨some t, (requested, t) :: map, .symbolInfoQ requested :: cs⟩ := by
                simp [get_tradeable_symbol, ht', hm, hb, hts]
              have hlook : List.lookup requested ((requested, t) :: map) = some t := by
                simp [List.lookup]
              have hsecond : get_tradeable_symbol env true ((requested, t) :: map) requested =
                  ⟨some t, (requested, t) :: map,
                    [.symbolInfoQ requested, .selectQ t]⟩ := by
                simp [get_tradeable_symbol, ht', hlook]
              rw [hfirst]
              simp only [hsecond]
              refine ⟨trivial, trivial, fun _ => metaQueries_pair _ _, ?_⟩
              simp [metaQueries, List.filter]
  
/-- Counterexample for C3: with only `GOLDm` tradeable, resolving `GOLD`
caches a suffix resolution, yet the repeated call still performs a venue
metadata query (the direct probe), contradicting "no additional venue
metadata queries once the first call has cached a resolution". -/
theorem get_tradeable_symbol_cached_still_queries :
    (get_tradeable_symbol envC3 true [] "GOLD").map ≠ [] ∧
    (get_tradeable_symbol envC3 true (get_tradeable_symbol envC3 true [] "GOLD").map
        "GOLD").result = (get_tradeable_symbol envC3 true [] "GOLD").result ∧
    metaQueries (get_tradeable_symbol envC3 true
        (get_tradeable_symbol envC3 true [] "GOLD").map "GOLD").calls ≠ 0 := by
  decide

/-- Witness for C3: at the concrete cached run the second call performs
exactly one metadata query. -/
theorem get_tradeable_symbol_idem_witness :
    metaQueries (get_tradeable_symbol envC3 true
      (get_tradeable_symbol envC3 true [] "GOLD").map "GOLD").calls = 1 :=
  (get_tradeable_symbol_idem envC3 true [] "GOLD").2.2.1 (by decide)

theorem sentOrders_append (a b : List VenueCall) :
    sentOrders (a ++ b) = sentOrders a ++ sentOrders b := by
  simp [sentOrders]

theorem trySuffixes_sentOrders (env : MT5Env) (base : String) (l : List String) :
    sentOrders (trySuffixes env base l).2 = [] := by
  induction l with
  | nil => simp [trySuffixes, sentOrders]
  | cons sfx rest ih =>
    by_cases ht : isTradeable (env.symbol_info (base ++ sfx)) = true
    · simp [trySuffixes, ht, sentOrders]
    · have ht' : isTradeable (env.symbol_info (base ++ sfx)) = false := by simpa using ht
      simp only [trySuffixes, ht', Bool.false_eq_true, if_false]
      simpa [sentOrders] using ih

theorem resolver_sentOrders (env : MT5Env) (conn : Bool) (map : SymbolMap)
    (requested : String) :
    sentOrders (get_tradeable_symbol env conn map requested).calls = [] := by
  cases conn with
  | false => simp [get_tradeable_symbol, sentOrders]
  | true =>
    by_cases ht : isTradeable (env.symbol_info requested) = true
    · simp [get_tradeable_symbol, ht, sentOrders]
    · have ht' : isTradeable (env.symbol_info requested) = false := by simpa using ht
      cases hm : map.lookup requested with
      | some mapped => simp [get_tradeable_symbol, ht', hm, sentOrders]
      | none =>
        cases hb : map.lookup (stripSuffixes requested) with
        | some mapped => simp [get_tradeable_symbol, ht', hm, hb, sentOrders]
        | none =>
          cases hts : trySuffixes env (stripSuffixes requested) suffixList with
          | mk res cs =>
            have hcs : sentOrders cs = [] := by
              have := trySuffixes_sentOrders env (stripSuffixes requested) suffixList
              rw [hts] at this
              exact this
            cases res with
            | none =>
              simp [get_tradeable_symbol, ht', hm, hb, hts, sentOrders] at hcs ⊢
              exact hcs
            | some t =>
              simp [get_tradeable_symbol, ht', hm, hb, hts, sentOrders] at hcs ⊢
              exact hcs

theorem closeLoop_spec (env : MT5Env) (symbol comment : String) (ps : List Position) :
    (closeLoop env symbol comment ps).2.1 = closeFailures env symbol comment ps ∧
    (closeLoop env symbol comment ps).1 + (closeLoop env symbol comment ps).2.1 = ps.length ∧
    sentOrders (closeLoop env symbol comment ps).2.2 =
      ps.map (mkCloseReq env symbol comment) := by
  induction ps with
  | nil => simp [closeLoop, closeFailures, sentOrders]
  | cons p rest ih =>
    obtain ⟨h1, h2, h3⟩ := ih
    simp only [closeFailures] at h1 ⊢
    by_cases hf : closeFails env symbol comment p = true
    · refine ⟨?_, ?_, ?_⟩
      · simp only [closeLoop, hf, if_true, List.filter_cons, List.length_cons]
        omega
      · simp only [closeLoop, hf, if_true, List.length_cons]
        omega
      · simp only [sentOrders] at h3
        simpa [closeLoop, hf, sentOrders] using h3
    · have hf' : closeFails env symbol comment p = false := by simpa using hf
      refine ⟨?_, ?_, ?_⟩
      · simp only [closeLoop, hf', Bool.false_eq_true, if_false, List.filter_cons]
        simpa [hf'] using h1
      · simp only [closeLoop, hf', Bool.false_eq_true, if_false, List.length_cons]
        omega
      · simp only [sentOrders] at h3
        simpa [closeLoop, hf', sentOrders] using h3

theorem selectByCloseType_nil (t : String) : selectByCloseType t [] = [] := by
  unfold selectByCloseType
  split
  · rfl
  · split <;> rfl

theorem close_by_signal_run (env : MT5Env) (map : SymbolMap) (sig : Signal)
    (requested symbol ctRaw reason : String) (ps : List Position)
    (hreq : (sigGet sig "symbol").getD (.s "EURUSD") = .s requested)
    (hres : (get_tradeable_symbol env true map requested).result = some symbol)
    (htype : (sigGet sig "type").getD (.s "all") = .s ctRaw)
    (hreason : (sigGet sig "reason").getD (.s "manual_close") = .s reason)
    (hps : env.positions_for symbol = .ok ps)
    (hne : selectByCloseType (strLower ctRaw)
      (ps.filter fun p => p.magic == MAGIC_NUMBER) ≠ []) :
    close_positions_by_signal env true map sig =
      ⟨some (if closeFailures env symbol ("Close: " ++ reason)
            (selectByCloseType (strLower ctRaw)
              (ps.filter fun p => p.magic == MAGIC_NUMBER)) = 0
          then Outcome.SUCCESS else Outcome.PARTIAL), true,
        (get_tradeable_symbol env true map requested).map,
        (get_tradeable_symbol env true map requested).calls ++ [.positionsSymQ symbol] ++
          (closeLoop env symbol ("Close: " ++ reason)
            (selectByCloseType (strLower ctRaw)
              (ps.filter fun p => p.magic == MAGIC_NUMBER))).2.2⟩ := by
  have hpsne : ps ≠ [] := by
    intro h
    apply hne
    rw [h]
    simp [selectByCloseType_nil]
  have hoursne : (ps.filter fun p => p.magic == MAGIC_NUMBER) ≠ [] := by
    intro h
    apply hne
    rw [h]
    exact selectByCloseType_nil _
  have hpsne' : ps.isEmpty = false := by
    cases ps with
    | nil => exact absurd rfl hpsne
    | cons a l => rfl
  have hoursne' : (ps.filter fun p => p.magic == MAGIC_NUMBER).isEmpty = false := by
    cases h : (ps.filter fun p => p.magic == MAGIC_NUMBER) with
    | nil => exact absurd h hoursne
    | cons a l => rfl
  have hne' : (selectByCloseType (strLower ctRaw)
      (ps.filter fun p => p.magic == MAGIC_NUMBER)).isEmpty = false := by
    cases h : selectByCloseType (strLower ctRaw)
        (ps.filter fun p => p.magic == MAGIC_NUMBER) with
    | nil => exact absurd h hne
    | cons a l => rfl
  simp only [close_positions_by_signal, hreq, htype, hreason, hps, hres,
    hpsne', hoursne', hne']
  simp [closeFailures, closeLoop_spec]

/-- C1 (amended): for a CLOSE signal matching N own positions on the
resolved symbol, every one of the N positions receives exactly one
close-order attempt even if an earlier attempt fails (the loop never
aborts early); the recorded outcome is SUCCESS iff the failure count is 0
and PARTIAL iff at least one attempt fails — including the all-failed
case, which the code also records as PARTIAL. -/
theorem close_by_signal_completeness (env : MT5Env) (map : SymbolMap) (sig : Signal)
    (requested symbol ctRaw reason : String) (ps : List Position)
    (hreq : (sigGet sig "symbol").getD (.s "EURUSD") = .s requested)
    (hres : (get_tradeable_symbol env true map requested).result = some symbol)
    (htype : (sigGet sig "type").getD (.s "all") = .s ctRaw)
    (hreason : (sigGet sig "reason").getD (.s "manual_close") = .s reason)
    (hps : env.positions_for symbol = .ok ps)
    (hne : selectByCloseType (strLower ctRaw)
      (ps.filter fun p => p.magic == MAGIC_NUMBER) ≠ []) :
    sentOrders (close_positions_by_signal env true map sig).calls =
      (selectByCloseType (strLower ctRaw)
        (ps.filter fun p => p.magic == MAGIC_NUMBER)).map
        (mkCloseReq env symbol ("Close: " ++ reason)) ∧
    ((close_positions_by_signal env true map sig).recorded = some Outcome.SUCCESS ↔
      closeFailures env symbol ("Close: " ++ reason)
        (selectByCloseType (strLower ctRaw)
          (ps.filter fun p => p.magic == MAGIC_NUMBER)) = 0) ∧
    ((close_positions_by_signal env true map sig).recorded = some Outcome.PARTIAL ↔
      0 < closeFailures env symbol ("Close: " ++ reason)
        (selectByCloseType (strLower ctRaw)
          (ps.filter fun p => p.magic == MAGIC_NUMBER))) := by
  rw [close_by_signal_run env map sig requested symbol ctRaw reason ps
    hreq hres htype hreason hps hne]
  refine ⟨?_, ?_, ?_⟩
  · rw [sentOrders_append, sentOrders_append, resolver_sentOrders]
    simp only [sentOrders, List.filterMap, List.nil_append]
    exact (closeLoop_spec env symbol ("Close: " ++ reason) _).2.2
  · by_cases hf : closeFailures env symbol ("Close: " ++ reason)
        (selectByCloseType (strLower ctRaw)
          (ps.filter fun p => p.magic == MAGIC_NUMBER)) = 0 <;>
      simp [hf]
  · by_cases hf : closeFailures env symbol ("Close: " ++ reason)
        (selectByCloseType (strLower ctRaw)
          (ps.filter fun p => p.magic == MAGIC_NUMBER)) = 0
    · simp [hf]
    · simp [hf]
      omega

/-- Counterexample for C1 as stated: one own position whose close attempt
fails — the code records PARTIAL although the failure count equals N, so
"PARTIAL iff 0 < failures < N" is false (it would require failures < 1). -/
theorem close_partial_when_all_fail :
    (close_positions_by_signal envC1 true [] sigC1).recorded = some Outcome.PARTIAL ∧
    closeFailures envC1 "EURUSD" "Close: manual_close"
      (selectByCloseType "all" ([posLong1].filter fun p => p.magic == MAGIC_NUMBER)) = 1 ∧
    (selectByCloseType "all" ([posLong1].filter fun p => p.magic == MAGIC_NUMBER)).length = 1 ∧
    ¬(0 < closeFailures envC1 "EURUSD" "Close: manual_close"
        (selectByCloseType "all" ([posLong1].filter fun p => p.magic == MAGIC_NUMBER)) ∧
      closeFailures envC1 "EURUSD" "Close: manual_close"
        (selectByCloseType "all" ([posLong1].filter fun p => p.magic == MAGIC_NUMBER)) <
        (selectByCloseType "all" ([posLong1].filter fun p => p.magic == MAGIC_NUMBER)).length) := by
  decide

/-- Witness for C1: the concrete all-fail run — one attempt per position
and outcome PARTIAL because at least one attempt failed. -/
theorem close_by_signal_completeness_witness :
    sentOrders (close_positions_by_signal envC1 true [] sigC1).calls =
      (selectByCloseType (strLower "all") ([posLong1].filter fun p => p.magic == MAGIC_NUMBER)).map
        (mkCloseReq envC1 "EURUSD" ("Close: " ++ "manual_close")) ∧
    ((close_positions_by_signal envC1 true [] sigC1).recorded = some Outcome.PARTIAL ↔
      0 < closeFailures envC1 "EURUSD" ("Close: " ++ "manual_close")
        (selectByCloseType (strLower "all") ([posLong1].filter fun p => p.magic == MAGIC_NUMBER))) := by
  have h := close_by_signal_completeness envC1 [] sigC1 "EURUSD" "EURUSD" "all"
    "manual_close" [posLong1] (by decide) (by decide) (by decide) (by decide)
    rfl (by decide)
  exact ⟨h.1, h.2.2⟩

/-- C2 (amended): the close-type selector is read from the signal's `type`
field (not `close_type`); `type = long` closes only own BUY-direction
positions on the resolved symbol, `type = short` only own SELL-direction
positions, and any other value (including the default `all`) closes every
own position there — one attempt each. -/
theorem close_type_filter (env : MT5Env) (map : SymbolMap) (sig : Signal)
    (requested symbol ctRaw reason : String) (ps : List Position)
    (hreq : (sigGet sig "symbol").getD (.s "EURUSD") = .s requested)
    (hres : (get_tradeable_symbol env true map requested).result = some symbol)
    (htype : (sigGet sig "type").getD (.s "all") = .s ctRaw)
    (hreason : (sigGet sig "reason").getD (.s "manual_close") = .s reason)
    (hps : env.positions_for symbol = .ok ps)
    (hne : selectByCloseType (strLower ctRaw)
      (ps.filter fun p => p.magic == MAGIC_NUMBER) ≠ []) :
    sentOrders (close_positions_by_signal env true map sig).calls =
      (selectByCloseType (strLower ctRaw)
        (ps.filter fun p => p.magic == MAGIC_NUMBER)).map
        (mkCloseReq env symbol ("Close: " ++ reason)) ∧
    (strLower ctRaw = "long" →
      selectByCloseType (strLower ctRaw) (ps.filter fun p => p.magic == MAGIC_NUMBER) =
        (ps.filter fun p => p.magic == MAGIC_NUMBER).filter fun p => p.ptype == 0) ∧
    (strLower ctRaw = "short" →
      selectByCloseType (strLower ctRaw) (ps.filter fun p => p.magic == MAGIC_NUMBER) =
        (ps.filter fun p => p.magic == MAGIC_NUMBER).filter fun p => p.ptype == 1) ∧
    (strLower ctRaw ≠ "long" → strLower ctRaw ≠ "short" →
      selectByCloseType (strLower ctRaw) (ps.filter fun p => p.magic == MAGIC_NUMBER) =
        ps.filter fun p => p.magic == MAGIC_NUMBER) := by
  refine ⟨?_, ?_, ?_, ?_⟩
  · rw [close_by_signal_run env map sig requested symbol ctRaw reason ps
      hreq hres htype hreason hps hne]
    rw [sentOrders_append, sentOrders_append, resolver_sentOrders]
    simp only [sentOrders, List.filterMap, List.nil_append]
    exact (closeLoop_spec env symbol ("Close: " ++ reason) _).2.2
  · intro h; simp [selectByCloseType, h]
  · intro h; simp [selectByCloseType, h]
  · intro h1 h2; simp [selectByCloseType, h1, h2]

/-- Counterexample for C2 as stated: a CLOSE signal carrying the selector
under the key `close_type` (as the claim writes it) is ignored by the code,
which reads the key `type`; with two own longs and one own short, all
three positions receive close attempts instead of the claimed two. -/
theorem close_type_key_mismatch :
    (sentOrders (close_positions_by_signal envC2 true [] sigC2cex).calls).length = 3 ∧
    ¬(sentOrders (close_positions_by_signal envC2 true [] sigC2cex).calls).length = 2 := by
  decide

/-- Witness for C2: the scenario with the selector under the key `type` —
two own longs and one own short yield exactly the two long-position close
attempts. -/
theorem close_type_filter_witness :
    sentOrders (close_positions_by_signal envC2 true [] sigC2).calls =
      (selectByCloseType (strLower "long")
        ([posLongA, posLongB, posShortC].filter fun p => p.magic == MAGIC_NUMBER)).map
        (mkCloseReq envC2 "EURUSD" ("Close: " ++ "manual_close")) ∧
    selectByCloseType (strLower "long")
      ([posLongA, posLongB, posShortC].filter fun p => p.magic == MAGIC_NUMBER) =
      ([posLongA, posLongB, posShortC].filter fun p => p.magic == MAGIC_NUMBER).filter
        fun p => p.ptype == 0 := by
  have h := close_type_filter envC2 [] sigC2 "EURUSD" "EURUSD" "long" "manual_close"
    [posLongA, posLongB, posShortC] (by decide) (by decide) (by decide) (by decide)
    rfl (by decide)
  exact ⟨h.1, h.2.1 (by decide)⟩

theorem trySuffixes_no_positionsSymQ (env : MT5Env) (base : String) (l : List String)
    (s : String) : VenueCall.positionsSymQ s ∉ (trySuffixes env base l).2 := by
  induction l with
  | nil => simp [trySuffixes]
  | cons sfx rest ih =>
    by_cases ht : isTradeable (env.symbol_info (base ++ sfx)) = true
    · simp [trySuffixes, ht]
    · have ht' : isTradeable (env.symbol_info (base ++ sfx)) = false := by simpa using ht
      simp only [trySuffixes, ht', Bool.false_eq_true, if_false]
      simp only [List.mem_cons, not_or]
      exact ⟨by simp, ih⟩

theorem resolver_no_positionsSymQ (env : MT5Env) (conn : Bool) (map : SymbolMap)
    (requested : String) (s : String) :
    VenueCall.positionsSymQ s ∉ (get_tradeable_symbol env conn map requested).calls := by
  cases conn with
  | false => simp [get_tradeable_symbol]
  | true =>
    by_cases ht : isTradeable (env.symbol_info requested) = true
    · simp [get_tradeable_symbol, ht]
    · have ht' : isTradeable (env.symbol_info requested) = false := by simpa using ht
      cases hm : map.lookup requested with
      | some mapped => simp [get_tradeable_symbol, ht', hm]
      | none =>
        cases hb : map.lookup (stripSuffixes requested) with
        | some mapped => simp [get_tradeable_symbol, ht', hm, hb]
        | none =>
          cases hts : trySuffixes env (stripSuffixes requested) suffixList with
          | mk res cs =>
            have hcs : VenueCall.positionsSymQ s ∉ cs := by
              have := trySuffixes_no_positionsSymQ env (stripSuffixes requested) suffixList s
              rw [hts] at this
              exact this
            cases res with
            | none =>
              simp only [get_tradeable_symbol, ht', hm, hb, hts]
              simp [hcs]
            | some t =>
              simp only [get_tradeable_symbol, ht', hm, hb, hts]
              simp [hcs]

/-- C7: a signal whose `vps_id` does not match this instance's identity is
recorded REJECTED and no venue adapter call is made at all. -/
theorem wrong_vps_rejected (cfg : Cfg) (env : MT5Env) (st : SvcState) (sig : Signal)
    (hconn : st.mt5_connected = true)
    (hvps : (sigGet sig "vps_id").getD (.s "unknown") ≠ PyVal.s st.vps_id) :
    (process_signal cfg env st sig).outcome = some Outcome.REJECTED ∧
    (process_signal cfg env st sig).calls = [] := by
  simp [process_signal, hconn, hvps]

/-- Witness for C7: a signal addressed to `other-instance` handled by the
`vps1` engine. -/
theorem wrong_vps_rejected_witness :
    (process_signal cfgSingle envStd stVps1 sigWrongVps).outcome = some Outcome.REJECTED ∧
    (process_signal cfgSingle envStd stVps1 sigWrongVps).calls = [] :=
  wrong_vps_rejected cfgSingle envStd stVps1 sigWrongVps (by decide) (by decide)

/-- C5: with single-trade mode enabled and at least one own-tagged position
open anywhere, a BUY/SELL signal that reaches the guard is recorded
SKIPPED, no order is submitted, and the close-opposite sub-flow (whose
first step is a per-symbol position query) never runs. -/
theorem single_trade_blocks (cfg : Cfg) (env : MT5Env) (st : SvcState) (sig : Signal)
    (requested symbol actRaw : String) (q : ℚ) (si : SymbolInfo) (ps : List Position)
    (hsingle : cfg.single_trade_mode = true)
    (hconn : st.mt5_connected = true)
    (hvps : (sigGet sig "vps_id").getD (.s "unknown") = PyVal.s st.vps_id)
    (hreq : (sigGet sig "symbol").getD (.s "EURUSD") = .s requested)
    (hres : (get_tradeable_symbol env true st.symbol_map requested).result = some symbol)
    (hact : (sigGet sig "action").getD (.s "BUY") = .s actRaw)
    (hnc : strUpper actRaw ≠ "CLOSE")
    (hqty : (sigGet sig "quantity").getD (.n (1/100)) = .n q)
    (hterm : env.terminal_alive = true)
    (hsi : env.symbol_info symbol = some si)
    (hacct : env.account = true)
    (hpos : env.positions = .ok ps)
    (hours : (ps.filter fun p => p.magic == MAGIC_NUMBER) ≠ []) :
    (process_signal cfg env st sig).outcome = some Outcome.SKIPPED ∧
    sentOrders (process_signal cfg env st sig).calls = [] ∧
    ∀ s, VenueCall.positionsSymQ s ∉ (process_signal cfg env st sig).calls := by
  have hpsne : ps.isEmpty = false := by
    cases ps with
    | nil => simp at hours
    | cons a l => rfl
  have hfil : (!(ps.filter fun p => p.magic == MAGIC_NUMBER).isEmpty) = true := by
    cases h : (ps.filter fun p => p.magic == MAGIC_NUMBER) with
    | nil => exact absurd h hours
    | cons a l => rfl
  have hguard : has_open_position true env = (true, [.positionsQ]) := by
    simp [has_open_position, hpos, hpsne, hfil]
  have hrun : process_signal cfg env st sig =
      ⟨some Outcome.SKIPPED, true,
        (get_tradeable_symbol env true st.symbol_map requested).map,
        (get_tradeable_symbol env true st.symbol_map requested).calls ++
          [VenueCall.terminalQ] ++ [VenueCall.symbolInfoQ symbol] ++
          [VenueCall.accountQ] ++ [VenueCall.positionsQ]⟩ := by
    simp only [process_signal, hconn, Bool.true_eq_false, if_false, hvps, ne_eq,
      not_true_eq_false, processAfterChecks, hreq, hres, hact, hnc, if_false,
      hqty, pyFloat, hterm, hsi, hacct, hguard, hsingle]
    simp [hguard]
  rw [hrun]
  refine ⟨rfl, ?_, ?_⟩
  · simp only [sentOrders_append, resolver_sentOrders]
    simp [sentOrders]
  · intro s
    simp only [List.mem_append, List.mem_singleton, not_or]
    refine ⟨⟨⟨⟨?_, by simp⟩, by simp⟩, by simp⟩, by simp⟩
    exact resolver_no_positionsSymQ env true st.symbol_map requested s

/-- Witness for C5: a BUY signal while an own position is open under
single-trade mode — SKIPPED with no submissions. -/
theorem single_trade_blocks_witness :
    (process_signal cfgSingle envOpenPos stVps1 sigBuy).outcome = some Outcome.SKIPPED ∧
    sentOrders (process_signal cfgSingle envOpenPos stVps1 sigBuy).calls = [] := by
  have h := single_trade_blocks cfgSingle envOpenPos stVps1 sigBuy "EURUSD" "EURUSD"
    "BUY" 1 siEURUSD [posLong1] (by decide) (by decide) (by decide) (by decide)
    (by decide) (by decide) (by decide) (by decide) rfl rfl (by decide) rfl (by decide)
  exact ⟨h.1, h.2.1⟩

theorem close_recorded_ne_rejected (env : MT5Env) (conn : Bool) (map : SymbolMap)
    (sig : Signal) :
    (close_positions_by_signal env conn map sig).recorded ≠ some Outcome.REJECTED := by
  intro h
  unfold close_positions_by_signal at h
  iterate 10
    all_goals try split at h
    all_goals try simp at h

set_option maxHeartbeats 1000000 in
theorem processAfterChecks_ne_rejected (cfg : Cfg) (env : MT5Env) (st : SvcState)
    (sig : Signal) :
    (processAfterChecks cfg env st sig).outcome ≠ some Outcome.REJECTED := by
  intro h
  unfold processAfterChecks at h
  iterate 24
    all_goals try split at h
    all_goals try simp at h
  all_goals exact absurd h (close_recorded_ne_rejected _ _ _ _)

/-- C9: with `VPS_INSTANCE_ID` unset the instance identity defaults to
`unknown`; a signal lacking `vps_id` also defaults to `unknown`, so it
passes the recipient check and is never REJECTED. -/
theorem default_identity_not_rejected (cfg : Cfg) (env : MT5Env) (st : SvcState)
    (sig : Signal)
    (hconn : st.mt5_connected = true)
    (hid : st.vps_id = initVpsId none)
    (hnone : sigGet sig "vps_id" = none) :
    (process_signal cfg env st sig).outcome ≠ some Outcome.REJECTED := by
  have hv : (sigGet sig "vps_id").getD (.s "unknown") = PyVal.s st.vps_id := by
    rw [hnone, hid]; rfl
  simp only [process_signal, hconn, Bool.true_eq_false, if_false, hv, ne_eq,
    not_true_eq_false]
  exact processAfterChecks_ne_rejected cfg env st sig

/-- Witness for C9: a signal with no `vps_id` on an engine whose identity
defaulted to `unknown` is not rejected. -/
theorem default_identity_not_rejected_witness :
    (process_signal cfgSingle envStd stUnknown sigNoVps).outcome ≠ some Outcome.REJECTED :=
  default_identity_not_rejected cfgSingle envStd stUnknown sigNoVps
    (by decide) (by decide) (by decide)

/-- C10: `has_open_position` returns `false` when the venue is disconnected
and when the position query raises; consequently, under single-trade mode a
BUY/SELL signal processed during such a query failure is not SKIPPED and
proceeds to order construction and submission (the guard fails open). -/
theorem has_open_position_fails_open :
    (∀ env : MT5Env, (has_open_position false env).1 = false) ∧
    (∀ (env : MT5Env) (b : Bool), env.positions = .error () →
      (has_open_position b env).1 = false) ∧
    (∀ (cfg : Cfg) (env : MT5Env) (st : SvcState) (sig : Signal)
        (requested symbol actRaw : String) (q : ℚ) (si : SymbolInfo),
      cfg.single_trade_mode = true →
      st.mt5_connected = true →
      (sigGet sig "vps_id").getD (.s "unknown") = PyVal.s st.vps_id →
      (sigGet sig "symbol").getD (.s "EURUSD") = .s requested →
      (get_tradeable_symbol env true st.symbol_map requested).result = some symbol →
      (sigGet sig "action").getD (.s "BUY") = .s actRaw →
      strUpper actRaw ≠ "CLOSE" →
      (sigGet sig "quantity").getD (.n (1/100)) = .n q →
      env.terminal_alive = true →
      env.symbol_info symbol = some si →
      env.account = true →
      env.positions = .error () →
      si.volume_step ≠ 0 →
      sigGet sig "sl" = none →
      sigGet sig "tp" = none →
      (process_signal cfg env st sig).outcome ≠ some Outcome.SKIPPED ∧
      ∃ req, buildOrderRequest sig symbol (strUpper actRaw) si q = .ok req ∧
        VenueCall.orderSendQ req ∈ (process_signal cfg env st sig).calls) := by
  refine ⟨?_, ?_, ?_⟩
  · intro env; rfl
  · intro env b hp
    cases b with
    | false => rfl
    | true => simp [has_open_position, hp]
  · intro cfg env st sig requested symbol actRaw q si
      hsingle hconn hvps hreq hres hact hnc hqty hterm hsi hacct hpos hstep hsl htp
    have hguard : has_open_position true env = (false, [.positionsQ]) := by
      simp [has_open_position, hpos]
    obtain ⟨req, hbuild⟩ :
        ∃ req, buildOrderRequest sig symbol (strUpper actRaw) si q = .ok req := by
      simp only [buildOrderRequest, hstep, if_false, hsl, htp]
      exact ⟨_, rfl⟩
    have hkey : ((processAfterChecks cfg env st sig).outcome = some Outcome.FAILED ∨
        (processAfterChecks cfg env st sig).outcome = some Outcome.SUCCESS) ∧
        VenueCall.orderSendQ req ∈ (processAfterChecks cfg env st sig).calls := by
      simp only [processAfterChecks, hreq, hres, hact, hnc, if_false, hqty, pyFloat,
        hterm, hsi, hacct, hguard, hsingle, hconn, hbuild]
      cases ho : env.order_send req with
      | none => simp
      | some r =>
        by_cases hr : r.retcode = TRADE_RETCODE_DONE
        · simp [hr]
        · simp [hr]
    obtain ⟨hout, hmem⟩ := hkey
    have hps : process_signal cfg env st sig = processAfterChecks cfg env st sig := by
      simp only [process_signal, hconn, Bool.true_eq_false, if_false, hvps, ne_eq,
        not_true_eq_false]
    rw [hps]
    refine ⟨?_, req, hbuild, hmem⟩
    rcases hout with h | h <;> simp [h]

/-- Witness for C10: a BUY signal under single-trade mode while the global
position query raises — not SKIPPED, and the built order is submitted. -/
theorem has_open_position_fails_open_witness :
    (process_signal cfgSingle envPosErr stVps1 sigBuy).outcome ≠ some Outcome.SKIPPED ∧
    ∃ req, buildOrderRequest sigBuy "EURUSD" (strUpper "BUY") siEURUSD 1 = .ok req ∧
      VenueCall.orderSendQ req ∈ (process_signal cfgSingle envPosErr stVps1 sigBuy).calls :=
  has_open_position_fails_open.2.2 cfgSingle envPosErr stVps1 sigBuy "EURUSD" "EURUSD"
    "BUY" 1 siEURUSD (by decide) (by decide) (by decide) (by decide) (by decide)
    (by decide) (by decide) (by decide) rfl rfl (by decide) rfl (by simp [siEURUSD])
    (by decide) (by decide)

/-- C8: an order built from a BUY signal uses the venue ask as price, with
stop-loss `price − sl` and take-profit `price + tp`; a SELL order uses the
bid, with stop-loss `price + sl` and take-profit `price − tp`; with `sl`
and `tp` absent the order carries neither. -/
theorem build_order_sl_tp (sig : Signal) (symbol : String) (si : SymbolInfo)
    (q dsl dtp : ℚ)
    (hsl : sigGet sig "sl" = some (.n dsl))
    (htp : sigGet sig "tp" = some (.n dtp))
    (hstep : si.volume_step ≠ 0) :
    (∃ r, buildOrderRequest sig symbol "BUY" si q = .ok r ∧
      r.price = si.ask ∧ r.sl = some (si.ask - dsl) ∧ r.tp = some (si.ask + dtp)) ∧
    (∃ r, buildOrderRequest sig symbol "SELL" si q = .ok r ∧
      r.price = si.bid ∧ r.sl = some (si.bid + dsl) ∧ r.tp = some (si.bid - dtp)) ∧
    (∀ (sig2 : Signal) (action : String) (r : OrderRequest),
      sigGet sig2 "sl" = none → sigGet sig2 "tp" = none →
      buildOrderRequest sig2 symbol action si q = .ok r →
      r.sl = none ∧ r.tp = none) := by
  refine ⟨?_, ?_, ?_⟩
  · simp only [buildOrderRequest, hstep, if_false, hsl, htp]
    simp
  · simp only [buildOrderRequest, hstep, if_false, hsl, htp]
    simp
  · intro sig2 action r h1 h2 h3
    simp only [buildOrderRequest, hstep, if_false, h1, h2, Except.ok.injEq] at h3
    rw [← h3]
    exact ⟨rfl, rfl⟩

/-- Witness for C8: sl distance 1 and tp distance 2 on a BUY against the
EURUSD quote. -/
theorem build_order_sl_tp_witness :
    ∃ r, buildOrderRequest sigSlTp "EURUSD" "BUY" siEURUSD 1 = .ok r ∧
      r.price = siEURUSD.ask ∧ r.sl = some (siEURUSD.ask - 1) ∧
      r.tp = some (siEURUSD.ask + 2) :=
  (build_order_sl_tp sigSlTp "EURUSD" siEURUSD 1 1 2 (by decide) (by decide)
    (by simp [siEURUSD])).1
